import Mathlib

/-!
Verification of the PecanPy data-access library (pecanpy package).

This file gives a shallow embedding, in Lean 4, of the decision logic of the
pecanpy package: the survey column-normalization rule sets of
`surveys_api.py` (and its near-duplicate in `api.py`), the frequency
dispatch and chunked-read behaviour of `electricity_egauge_api.py`, the
query-building steps of `gas_water_api.py`, and the imputation /
one-hot-encoding pipeline of `GetSurveyData2014.py`.

Pandas tables are modelled column-major: a table is a list of named columns,
and a column is a list of cells.  A cell is either SQL NULL / NaN (`Cell.null`)
or a string, boolean or (rational) numeric value.  Python exceptions are
modelled with `Except PyErr`.
-/

/-- A single table cell: NULL/NaN, a string, a boolean, or a numeric value
(Python ints and floats are both embedded as rationals). -/
inductive Cell where
  | null
  | str (s : String)
  | bool (b : Bool)
  | num (q : ℚ)
deriving DecidableEq, Repr

/-- A column of a pandas DataFrame (one cell per row). -/
abbrev Col := List Cell

/-- A pandas DataFrame, column-major: a list of (column name, cells). -/
abbrev Table := List (String × Col)

/-- The Python exceptions raised by this code base. -/
inductive PyErr where
  | valueError
  | typeError
  | nameError (n : String)
  | keyError (k : String)
  | indexError
deriving DecidableEq, Repr

/-- Column names of a table, in order (`df.columns`). -/
def colNames (t : Table) : List String :=
  t.map Prod.fst

/-- Look up a column by name (`df[name]`); absent columns give `[]`. -/
def getCol (t : Table) (name : String) : Col :=
  ((t.find? (fun p => p.1 == name)).map Prod.snd).getD []

/-- Overwrite the cells of an existing column (`df[name] = series`). -/
def setColVal (t : Table) (name : String) (c : Col) : Table :=
  t.map (fun p => if p.1 == name then (p.1, c) else p)

/-- Drop a column (`df.drop(name, axis=1)`). -/
def dropCol (t : Table) (name : String) : Table :=
  t.filter (fun p => p.1 != name)

/-- Append a new column on the right (`df[new] = series` for a fresh name). -/
def addCol (t : Table) (name : String) (c : Col) : Table :=
  t ++ [(name, c)]

/-!
## The foundation merge rule

`_merge_foundation_columns` appears identically in `surveys_api.py`
(lines 547-554) and `api.py` (lines 708-715).  It reads the two indicator
columns `foundation_pier_beam` and `foundation_slab` of one row and returns
a single merged token.  `row.foundation_pier_beam == ''` is the empty-string
test and `row.foundation_pier_beam is None` the SQL-NULL test.
-/

/-- `_merge_foundation_columns(row)` from `surveys_api.py` / `api.py`. -/
def mergeFoundationColumns (pier slab : Cell) : Cell :=
  if pier == .str "" || pier == .null then
    (if slab == .str "Slab" then .str "Slab" else .null)
  else if pier == .str "Pier and beam" && (slab == .str "" || slab == .null) then
    .str "Pier and beam"
  else
    .str "Both"

/-!
## Cell-level embeddings of the pandas / Python operations used by the
survey normalizers
-/

/-- `Series.replace(dict)`: a cell equal to a dict key is replaced by the
corresponding value; every other cell is left unchanged. -/
def replaceCell (m : List (Cell × Cell)) (c : Cell) : Cell :=
  ((m.find? (fun p => p.1 == c)).map Prod.snd).getD c

/-- `Series.notnull()` per cell. -/
def notnullCell (c : Cell) : Cell :=
  .bool (c != .null)

/-- `Series.astype(CategoricalDtype(cats))` per cell: values outside the
category list are coerced to NaN. -/
def astypeCatCell (cats : List Cell) (c : Cell) : Cell :=
  if c = .null then .null else if c ∈ cats then c else .null

/-- A `.str` accessor method per cell: applied to string cells, NaN stays
NaN, and non-string cells become NaN. -/
def strCell (f : String → String) (c : Cell) : Cell :=
  match c with
  | .str s => .str (f s)
  | _ => .null

/-- Truncation toward zero, as Python `int()` on a float. -/
def ratTrunc (q : ℚ) : Int :=
  if 0 ≤ q then ⌊q⌋ else ⌈q⌉

/-- Digits of a numeral, most significant first, to its value. -/
def digitsVal (cs : List Char) : Nat :=
  cs.foldl (fun a c => 10 * a + (c.toNat - 48)) 0

/-- Strip leading and trailing whitespace from a character list. -/
def trimChars (cs : List Char) : List Char :=
  ((cs.dropWhile Char.isWhitespace).reverse.dropWhile Char.isWhitespace).reverse

/-- Unsigned decimal numeral (integer part, optional fraction part). -/
def parseRatCore (cs : List Char) : Option ℚ :=
  let i := cs.takeWhile Char.isDigit
  match cs.dropWhile Char.isDigit with
  | [] => if i ≠ [] then some (digitsVal i) else none
  | '.' :: f =>
      if (i ≠ [] ∨ f ≠ []) ∧ f.all Char.isDigit then
        some ((digitsVal i : ℚ) + (digitsVal f : ℚ) / ((10 : ℚ) ^ f.length))
      else none
  | _ => none

/-- Parse a decimal literal with optional sign and surrounding whitespace,
as accepted by `pandas.to_numeric` / Python `float()`. -/
def parseRat? (s : String) : Option ℚ :=
  match trimChars s.data with
  | '-' :: rest => (parseRatCore rest).map Neg.neg
  | '+' :: rest => parseRatCore rest
  | t => parseRatCore t

/-- Unsigned decimal integer numeral. -/
def parseIntCore (cs : List Char) : Option Int :=
  if cs ≠ [] ∧ cs.all Char.isDigit then some ((digitsVal cs : Int)) else none

/-- Parse an integer literal with optional sign and surrounding whitespace,
as accepted by Python `int()` on a string. -/
def parseInt? (s : String) : Option Int :=
  match trimChars s.data with
  | '-' :: rest => (parseIntCore rest).map Neg.neg
  | '+' :: rest => parseIntCore rest
  | t => parseIntCore t

/-- `lambda v: int(v) if v is not None else v` per cell; an unparseable
string raises `ValueError`. -/
def pyIntCell (c : Cell) : Except PyErr Cell :=
  match c with
  | .null => .ok .null
  | .str s =>
      match parseInt? s with
      | some n => .ok (.num n)
      | none => .error .valueError
  | .num q => .ok (.num (ratTrunc q))
  | .bool b => .ok (.num (if b then 1 else 0))

/-- `pandas.to_numeric(series, errors="coerce")` per cell: unparseable
strings become NaN. -/
def toNumericCell (c : Cell) : Cell :=
  match c with
  | .null => .null
  | .str s => ((parseRat? s).map Cell.num).getD .null
  | .num q => .num q
  | .bool b => .num (if b then 1 else 0)

/-- `Series.astype("float64")` per cell: an unparseable string raises
`ValueError`; NaN is representable and stays. -/
def astypeFloatCell (c : Cell) : Except PyErr Cell :=
  match c with
  | .null => .ok .null
  | .str s =>
      match parseRat? s with
      | some q => .ok (.num q)
      | none => .error .valueError
  | .num q => .ok (.num q)
  | .bool b => .ok (.num (if b then 1 else 0))

/-- `Series.astype("int64")` per cell: NaN is not representable and raises,
as does an unparseable string; floats are truncated toward zero. -/
def astypeIntCell (c : Cell) : Except PyErr Cell :=
  match c with
  | .null => .error .valueError
  | .str s =>
      match parseInt? s with
      | some n => .ok (.num n)
      | none => .error .valueError
  | .num q => .ok (.num (ratTrunc q))
  | .bool b => .ok (.num (if b then 1 else 0))

/-- `series == "Yes"` per cell (NaN compares unequal, giving `False`). -/
def eqYesCell (c : Cell) : Cell :=
  .bool (c == .str "Yes")

/-- The `lambda v: v / 1e3 if v > 1e3 else v` kW unit correction applied to
`pv_system_size` after numeric coercion. -/
def unitCorrectQ (q : ℚ) : ℚ :=
  if q > 1000 then q / 1000 else q

/-- Unit correction per cell: NaN compares `False` against the threshold and
passes through unchanged. -/
def unitCorrectCell (c : Cell) : Cell :=
  match c with
  | .num q => .num (unitCorrectQ q)
  | c => c

/-- Remove every occurrence of `"kw"`, case-insensitively:
`Series.str.replace("kw", '', case=False)`. -/
def stripKwCI (s : String) : String :=
  ⟨go s.data⟩
where
  go : List Char → List Char
    | c1 :: c2 :: rest =>
        if (c1 = 'k' ∨ c1 = 'K') ∧ (c2 = 'w' ∨ c2 = 'W') then go rest
        else c1 :: go (c2 :: rest)
    | l => l

/-- Left-to-right, non-overlapping replacement of a pattern in a character
list, as Python `str.replace`.  The fuel argument makes the recursion
structural; one unit of fuel is spent per emitted position, so fuel equal to
the list length always suffices. -/
def replaceChars (pat repl : List Char) : Nat → List Char → List Char
  | _, [] => []
  | 0, l => l
  | fuel + 1, c :: cs =>
      if pat.isPrefixOf (c :: cs) ∧ pat ≠ [] then
        repl ++ replaceChars pat repl fuel (cs.drop (pat.length - 1))
      else
        c :: replaceChars pat repl fuel cs

/-- `str.replace(pat, repl)` (all occurrences, left to right). -/
def strReplace (s pat repl : String) : String :=
  ⟨replaceChars pat.data repl.data s.data.length s.data⟩

/-- `str.startswith(pre)`. -/
def strStarts (s pre : String) : Bool :=
  pre.data.isPrefixOf s.data

/-- `str.endswith(suf)`. -/
def strEnds (s suf : String) : Bool :=
  suf.data.isSuffixOf s.data

/-!
## The per-column rule sets of `read_survey_2013_all_participants_table`
and `read_survey_2014_all_participants_table` (`surveys_api.py`)

Each branch of the `if column == ... / elif ...` chain becomes a
`RuleAction`; the chain itself becomes `rule2013` / `rule2014`, evaluated in
the same precedence order as the source.
-/

/-- What one branch of the normalizer does to the visited column. -/
inductive RuleAction where
  | keep (f : Col → Except PyErr Col)
  | dropIt
  | renameTo (new : String) (f : Col → Except PyErr Col)
  | passthrough

/-- Lift a pure per-cell map to a column action. -/
def pureColMap (f : Cell → Cell) : Col → Except PyErr Col :=
  fun col => .ok (col.map f)

/-- Lift a fallible per-cell map to a column action. -/
def colMapE (f : Cell → Except PyErr Cell) : Col → Except PyErr Col :=
  fun col => col.mapM f

/-- `{"Yes": True, "No": False}`. -/
def yesNoMap : List (Cell × Cell) :=
  [(.str "Yes", .bool true), (.str "No", .bool false)]

/-- `{"Yes": True, "No": False, "N/A": None}` (2013 `retrofits_reason`). -/
def yesNoNAMap : List (Cell × Cell) :=
  yesNoMap ++ [(.str "N/A", .null)]

/-- `{"Yes": True, "No": False, "I dont know": None}`
(2013 `programmable_thermostat_currently_programmed`). -/
def yesNoIDKMap : List (Cell × Cell) :=
  yesNoMap ++ [(.str "I dont know", .null)]

/-- `{"One": 1, "Two": 2, "Three": 3, "Four": 4}`. -/
def oneToFourMap : List (Cell × Cell) :=
  [(.str "One", .num 1), (.str "Two", .num 2), (.str "Three", .num 3),
   (.str "Four", .num 4)]

/-- `{None: 0, '1': 1, '2': 2, '3': 3, '4': 4, "5 or more": 5}`. -/
def countMap2013 : List (Cell × Cell) :=
  [(.null, .num 0), (.str "1", .num 1), (.str "2", .num 2),
   (.str "3", .num 3), (.str "4", .num 4), (.str "5 or more", .num 5)]

/-- `{None: 0, '1': 1, ..., "10": 10, "10 or more": 11}` (`tv_hours`). -/
def tvHoursMap : List (Cell × Cell) :=
  [(.null, .num 0), (.str "1", .num 1), (.str "2", .num 2),
   (.str "3", .num 3), (.str "4", .num 4), (.str "5", .num 5),
   (.str "6", .num 6), (.str "7", .num 7), (.str "8", .num 8),
   (.str "9", .num 9), (.str "10", .num 10), (.str "10 or more", .num 11)]

/-- `{'1': 1, ..., '5': 5}` (`ac_comfortability`). -/
def acComfortMap : List (Cell × Cell) :=
  [(.str "1", .num 1), (.str "2", .num 2), (.str "3", .num 3),
   (.str "4", .num 4), (.str "5", .num 5)]

/-- Numeric categories `range(start, start + len)`. -/
def numCats (start len : Nat) : List Cell :=
  (List.range' start len).map (fun n => Cell.num n)

/-- String categories. -/
def strCats (l : List String) : List Cell :=
  l.map Cell.str

/-- Categories of the merged `foundation` column. -/
def foundationCats : List Cell :=
  strCats ["Pier and beam", "Slab", "Both"]

/-- Month names, ordered. -/
def monthCats : List Cell :=
  strCats ["January", "February", "March", "April", "May", "June", "July",
           "August", "September", "October", "November", "December"]

/-- Education level categories. -/
def educationCats : List Cell :=
  strCats ["High School graduate", "Some college/trade/vocational school",
           "College graduate", "Postgraduate degree"]

/-- Total annual income categories. -/
def incomeCats : List Cell :=
  strCats ["Less than $10,000", "$10,000 - $19,999", "$20,000 - $34,999",
           "$35,000 - $49,999", "$50,000 - $74,999", "$75,000 - $99,999",
           "$100,000 - $149,999", "$150,000 - $299,000",
           "$300,000 - $1,000,000", "more than $1,000,000"]

/-- Appliance usage frequency categories. -/
def applianceCats : List Cell :=
  strCats ["rarely", "once or twice a month", "once or twice a week",
           "several times a week", "daily basis"]

/-- Cooking-time categories. -/
def cookingTimesCats : List Cell :=
  strCats ["None", "Less than 1 hour", "An hour or more"]

/-- Blinds usage categories. -/
def blindsCats : List Cell :=
  strCats ["Rarely or never", "Some days", "Most days"]

/-- Thermostat agreement categories. -/
def thermostatSettingsCats : List Cell :=
  strCats ["We are generally in agreement",
           "Our preferences vary 1-2 degrees Fahrenheit",
           "Our preferences vary 3-5 degrees Fahrenheit",
           "Our preferences vary more than 5 degrees Fahrenheit"]

/-- House draftiness categories. -/
def houseDraftyCats : List Cell :=
  strCats ["No", "Somewhat", "Yes"]

/-- AC filter change frequency categories. -/
def changeAcFiltersCats : List Cell :=
  strCats ["Every year or greater", "Every 6-12 months", "Every 4-6 months",
           "Every 2-3 months", "At least once every month"]

/-- AC service date categories. -/
def acServiceDateCats : List Cell :=
  strCats ["Less than a year ago", "1-2 years ago", "2-3 years ago",
           "3-5 years ago", "Never"]

/-- 2013 programmable thermostat difficulty categories. -/
def ptDifficultyCats2013 : List Cell :=
  strCats ["Havent tried", "Easy", "Moderately difficult", "Very difficult"]

/-- `{"5kw I think": 5.0, "8060 Watts": 8.060,
"20W (solar powered attic fan)": 0.020}` (2013 `pv_system_size`). -/
def pvSpecificMap2013 : List (Cell × Cell) :=
  [(.str "5kw I think", .num 5),
   (.str "8060 Watts", .num (806 / 100)),
   (.str "20W (solar powered attic fan)", .num (2 / 100))]

/-- The whole 2013 `pv_system_size` cleaning chain per cell: strip spaces,
strip `kw` case-insensitively, apply the specific replacements, coerce to
numeric, then apply the kW unit correction. -/
def pvSize2013Cell (c : Cell) : Cell :=
  unitCorrectCell (toNumericCell (replaceCell pvSpecificMap2013
    (strCell (fun s => stripKwCI (strReplace s " " "")) c)))

/-- The 2013 `total_annual_income` string-cleaning chain per cell. -/
def income2013Cell (c : Cell) : Cell :=
  astypeCatCell incomeCats
    (strCell (fun s => strReplace (strReplace s "-" ",") " , " " - ") c)

/-- The 2013 `if/elif` chain of `read_survey_2013_all_participants_table`
(`surveys_api.py` lines 125-341; duplicated in `api.py` lines 289-505) as an
ordered list of (branch condition, branch action) pairs, in source order.
The chain dispatches to the first matching branch. -/
def rules2013 (name : String) : List (Bool × RuleAction) :=
  [(name == "primary_residence",
     .keep (pureColMap (replaceCell yesNoMap))),
(name == "number_floors",
     .keep (pureColMap (fun c => astypeCatCell (numCats 1 4) (replaceCell oneToFourMap c)))),
(name == "year_moved_into_house",
     .keep (fun col => do
       let c ← col.mapM pyIntCell
       .ok (c.map (astypeCatCell (numCats 1958 60))))),
(name == "month_moved_into_house",
     .keep (pureColMap (astypeCatCell monthCats))),
(name == "year_house_constructed",
     .keep (fun col => do
       let c ← (col.map (replaceCell [(.str "1930 or earlier", .str "1930")])).mapM pyIntCell
       .ok (c.map (astypeCatCell (numCats 1930 88))))),
(name == "house_num_rooms",
     .keep (fun col => do
       let c ← col.mapM pyIntCell
       .ok (c.map (astypeCatCell (numCats 1 16))))),
(name == "house_ceiling_height",
     .dropIt),
(name == "house_square_feet",
     .keep (colMapE astypeFloatCell)),
(strStarts name "spend_time_at_home_",
     .keep (pureColMap notnullCell)),
(strStarts name "ethnicity_",
     .keep (pureColMap notnullCell)),
(strStarts name "sex_",
     .keep (pureColMap (fun c => astypeCatCell (numCats 0 6) (replaceCell countMap2013 c)))),
(strStarts name "residents_",
     .keep (pureColMap (fun c => astypeCatCell (numCats 0 6) (replaceCell countMap2013 c)))),
(name == "education_level",
     .keep (pureColMap (astypeCatCell educationCats))),
(name == "total_annual_income",
     .keep (pureColMap income2013Cell)),
(name == "smartphone_own",
     .keep (pureColMap (replaceCell yesNoMap))),
(name == "tablet_own",
     .keep (pureColMap (replaceCell yesNoMap))),
(name == "pv_system_own",
     .keep (pureColMap (replaceCell yesNoMap))),
(name == "pv_system_size",
     .keep (pureColMap pvSize2013Cell)),
(name == "electricity_used_monthly",
     .passthrough),
(name == "gas_used_monthly",
     .passthrough),
(name == "retrofits",
     .keep (pureColMap (replaceCell yesNoMap))),
(name == "retrofits_detail",
     .dropIt),
(name == "retrofits_reason",
     .keep (pureColMap (replaceCell yesNoNAMap))),
(strStarts name "appliance_",
     .keep (pureColMap (fun c => astypeCatCell applianceCats (replaceCell [(.str "N/A", .null)] c)))),
(name == "irrigation_system",
     .keep (pureColMap (replaceCell yesNoMap))),
(name == "cooking_weekdays_times",
     .keep (pureColMap (astypeCatCell cookingTimesCats))),
(name == "cooking_weekends_times",
     .keep (pureColMap (astypeCatCell cookingTimesCats))),
(strStarts name "cooking_",
     .keep (pureColMap notnullCell)),
(strStarts name "blinds_",
     .keep (pureColMap (astypeCatCell blindsCats))),
(name == "thermostat_settings",
     .keep (pureColMap (astypeCatCell thermostatSettingsCats))),
(name == "tv_hours",
     .keep (pureColMap (fun c => astypeCatCell (numCats 0 12) (replaceCell tvHoursMap c)))),
(name == "care_energy_cost",
     .keep (pureColMap (replaceCell yesNoMap))),
(name == "reduce_energy_cost",
     .keep (pureColMap (replaceCell yesNoMap))),
(name == "reduce_energy_yes",
     .dropIt),
(name == "modify_routines",
     .keep (pureColMap (replaceCell yesNoMap))),
(strEnds name "_brand" || strEnds name "_models",
     .dropIt),
(strStarts name "hvac_",
     .keep (pureColMap notnullCell)),
(strStarts name "compressor1_",
     .dropIt),
(strStarts name "compressor2_",
     .dropIt),
(strStarts name "compressor3_",
     .dropIt),
(strStarts name "air_handler1_",
     .dropIt),
(strStarts name "air_handler2_",
     .dropIt),
(strStarts name "heating_",
     .keep (pureColMap notnullCell)),
(strStarts name "temp_",
     .keep (pureColMap toNumericCell)),
(name == "pets",
     .keep (pureColMap (replaceCell yesNoMap))),
(name == "programmable_thermostat_currently_programmed",
     .keep (pureColMap (replaceCell yesNoIDKMap))),
(name == "programmable_thermostat_difficultly",
     .renameTo "programmable_thermostat_difficulty" (pureColMap (astypeCatCell ptDifficultyCats2013))),
(name == "ac_comfortability",
     .keep (pureColMap (fun c => astypeCatCell (numCats 1 5) (replaceCell acComfortMap c)))),
(name == "house_drafty",
     .keep (pureColMap (fun c => astypeCatCell houseDraftyCats (replaceCell [(.str "I dont know/Havent noticed", .null)] c)))),
(strStarts name "ac_cooling_",
     .keep (pureColMap notnullCell)),
(name == "change_ac_filters",
     .keep (pureColMap (fun c => astypeCatCell changeAcFiltersCats (replaceCell [(.str "There is an HVAC filter!?", .null)] c)))),
(name == "ac_service_package",
     .keep (pureColMap (replaceCell yesNoMap))),
(strStarts name "ac_service_package_cost",
     .dropIt),
(name == "ac_service_date",
     .keep (pureColMap (fun c => astypeCatCell acServiceDateCats (replaceCell [(.str "I dont know", .null)] c)))),
(name == "water_heater_tankless",
     .keep (pureColMap (replaceCell yesNoMap))),
(strStarts name "light_bulbs_",
     .keep (pureColMap notnullCell)),
(strStarts name "electronic_devices_",
     .keep (pureColMap (fun c => astypeCatCell (numCats 0 6) (replaceCell countMap2013 c)))),
(strEnds name "_number",
     .dropIt),
(name == "recessed_lights_location",
     .dropIt),
(name == "track_lights_location",
     .dropIt)]

/-- First-match dispatch over an ordered branch list; no match is the
`else: pass` default. -/
def firstMatch (l : List (Bool × RuleAction)) : RuleAction :=
  ((l.find? (fun p => p.1)).map (fun p => p.2)).getD .passthrough

/-- The 2013 rule dispatcher: the first matching branch of the chain. -/
def rule2013 (name : String) : RuleAction :=
  firstMatch (rules2013 name)

/-- Does any branch of the 2013 chain (other than the default) match? -/
def matchesRule2013 (name : String) : Bool :=
  (rules2013 name).any (fun p => p.1)

/-- Apply one branch action to the table (`df`) at the visited column. -/
def applyRuleAction (t : Table) (name : String) : RuleAction → Except PyErr Table
  | .passthrough => .ok t
  | .dropIt => .ok (dropCol t name)
  | .keep f => do
      let c ← f (getCol t name)
      .ok (setColVal t name c)
  | .renameTo new f => do
      let c ← f (getCol t name)
      .ok (dropCol (addCol t new c) name)

/-- The foundation merge prologue shared by the 2013 and 2014 readers:
build the merged `foundation` column with `_merge_foundation_columns`, cast
it to the three-value categorical dtype, and drop the two source columns. -/
def mergeFoundationStep (t : Table) : Table :=
  let pier := getCol t "foundation_pier_beam"
  let slab := getCol t "foundation_slab"
  let merged := (pier.zip slab).map (fun p => mergeFoundationColumns p.1 p.2)
  let cat := merged.map (astypeCatCell foundationCats)
  dropCol (dropCol (addCol t "foundation" cat) "foundation_pier_beam") "foundation_slab"

/-- `read_survey_2013_all_participants_table` after the raw table has been
fetched: foundation merge, then the `for column in df` loop applying
`rule2013` to each column name in the snapshot taken at loop entry. -/
def readSurvey2013 (t : Table) : Except PyErr Table :=
  let t1 := mergeFoundationStep t
  (colNames t1).foldlM (fun acc name => applyRuleAction acc name (rule2013 name)) t1

/-- `{'': None}`. -/
def emptyToNullMap : List (Cell × Cell) :=
  [(.str "", .null)]

/-- `{'None': 0, '': 0, '5 or more': 5}` (2014 `residents_` /
`electronic_devices_` columns). -/
def residentsMap2014 : List (Cell × Cell) :=
  [(.str "None", .num 0), (.str "", .num 0), (.str "5 or more", .num 5)]

/-- `{'': None, "Yes": True, "No": False}`. -/
def yesNoEmptyMap : List (Cell × Cell) :=
  emptyToNullMap ++ yesNoMap

/-- `{'': None, "Yes": True, "No": False, '\x22\x22\x22I don\x27t know\x22\x22\x22': None}`
(2014 `programmable_thermostat_currently_programmed`). -/
def programmedMap2014 : List (Cell × Cell) :=
  emptyToNullMap ++ yesNoMap ++ [(.str "\x22\x22\x22I don\x27t know\x22\x22\x22", .null)]

/-- 2014 survey status categories. -/
def statusCats : List Cell :=
  strCats ["Complete", "Partial"]

/-- 2014 PV satisfaction categories. -/
def pvSatisfiedCats : List Cell :=
  strCats ["Very dissatisfied", "Somewhat dissatisfied", "Neutral",
           "Somewhat satisfied", "Very"]

/-- 2014 programmable thermostat difficulty categories. -/
def ptDifficultyCats2014 : List Cell :=
  strCats ["Easy", "Moderately difficult", "Very difficult"]

/-- The 2014 `total_annual_income` cleaning chain per cell. -/
def income2014Cell (c : Cell) : Cell :=
  astypeCatCell incomeCats
    (replaceCell emptyToNullMap (strCell (fun s => strReplace s "\x22\x22\x22" "") c))

/-- The 2014 `pv_system_size` cleaning chain per cell: strip `kw`
case-insensitively, strip double quotes, commas, spaces and `DC`, map empty
and NA-ish tokens to NaN, coerce to numeric, apply the kW unit correction. -/
def pvSize2014Cell (c : Cell) : Cell :=
  unitCorrectCell (toNumericCell
    (replaceCell [(.str "", .null), (.str "NA", .null), (.str "n/a", .null)]
      (strCell (fun s =>
        strReplace (strReplace (strReplace (strReplace (stripKwCI s)
          "\x22" "") "," "") " " "") "DC" "") c)))

/-- The 2014 `if/elif` chain of `read_survey_2014_all_participants_table`
(`surveys_api.py` lines 402-515) as an ordered list of (branch condition,
branch action) pairs, in source order.  The chain dispatches to the first
matching branch. -/
def rules2014 (name : String) : List (Bool × RuleAction) :=
  [(name == "status",
     .keep (pureColMap (astypeCatCell statusCats))),
   (strStarts name "spend_time_at_home_",
     .keep (pureColMap (fun c => notnullCell (replaceCell emptyToNullMap c)))),
   (strStarts name "ethnicity_",
     .keep (pureColMap (fun c => notnullCell (replaceCell emptyToNullMap c)))),
   (strStarts name "hvac_",
     .keep (pureColMap (fun c => notnullCell (replaceCell emptyToNullMap c)))),
   (strStarts name "residents_",
     .keep (fun col => (col.map (replaceCell residentsMap2014)).mapM astypeIntCell)),
   (name == "education_level",
     .keep (pureColMap (astypeCatCell educationCats))),
   (name == "total_annual_income",
     .keep (pureColMap income2014Cell)),
   (name == "pv_system_own",
     .keep (pureColMap eqYesCell)),
   (name == "pv_system_size",
     .keep (pureColMap pvSize2014Cell)),
   (name == "pv_system_reason",
     .dropIt),
   (name == "pv_system_satisfied",
     .keep (pureColMap (fun c => astypeCatCell pvSatisfiedCats (replaceCell emptyToNullMap c)))),
   (strStarts name "pv_system_features_",
     .dropIt),
   (strStarts name "pv_system_common_",
     .dropIt),
   (strStarts name "pv_neg_factors_",
     .keep (pureColMap (fun c => notnullCell (replaceCell emptyToNullMap c)))),
   (strStarts name "pv_pos_",
     .keep (pureColMap (fun c => notnullCell (replaceCell emptyToNullMap c)))),
   (name == "pv_owner_response",
     .dropIt),
   (name == "retrofits",
     .keep (pureColMap (replaceCell yesNoEmptyMap))),
   (name == "retrofits_detail",
     .dropIt),
   (name == "irrigation_system",
     .keep (pureColMap (replaceCell yesNoEmptyMap))),
   (name == "ceiling_fans_count",
     .keep (fun col => (col.map (replaceCell [(.str "", .str "0")])).mapM astypeIntCell)),
   (name == "compressors_count",
     .keep (fun col => (col.map (replaceCell [(.str "", .str "0")])).mapM astypeIntCell)),
   (strStarts name "compressor1_",
     .dropIt),
   (strStarts name "compressor2_",
     .dropIt),
   (strStarts name "compressor3_",
     .dropIt),
   (strStarts name "temp_summer_",
     .keep (fun col => (col.map (replaceCell emptyToNullMap)).mapM astypeFloatCell)),
   (strStarts name "temp_winter_",
     .keep (pureColMap toNumericCell)),
   (name == "thermostats_brand",
     .dropIt),
   (name == "programmable_thermostat_currently_programmed",
     .keep (pureColMap (replaceCell programmedMap2014))),
   (name == "programmable_thermostat_difficulty",
     .keep (pureColMap (fun c => astypeCatCell ptDifficultyCats2014 (replaceCell (emptyToNullMap ++ [(.str "\x22\x22\x22Haven\x27t tried\x22\x22\x22", .null)]) c)))),
   (name == "ac_service_package",
     .keep (pureColMap (replaceCell yesNoEmptyMap))),
   (name == "electronic_devices_on_other",
     .dropIt),
   (strStarts name "electronic_devices_",
     .keep (fun col => (col.map (replaceCell residentsMap2014)).mapM astypeIntCell))]

/-- The 2014 rule dispatcher: the first matching branch of the chain. -/
def rule2014 (name : String) : RuleAction :=
  firstMatch (rules2014 name)

/-- Does any branch of the 2014 chain (other than the default) match? -/
def matchesRule2014 (name : String) : Bool :=
  (rules2014 name).any (fun p => p.1)

/-- `read_survey_2014_all_participants_table` after the raw table has been
fetched: foundation merge, then the `for column in df` loop applying
`rule2014` to each column name in the snapshot taken at loop entry. -/
def readSurvey2014 (t : Table) : Except PyErr Table :=
  let t1 := mergeFoundationStep t
  (colNames t1).foldlM (fun acc name => applyRuleAction acc name (rule2014 name)) t1

/-!
## `electricity_egauge_api.py`: frequency dispatch and chunked reads
-/

/-- The table / datetime-column pair selected by the `freq` argument. -/
structure EgaugeDispatch where
  table : String
  local_minute : String
deriving DecidableEq, Repr

/-- The `freq` dispatch of `read_electricity_egauge_query`
(`electricity_egauge_api.py` lines 66-81): an unsupported frequency raises
`ValueError` before `_read_electricity_egauge_query` is invoked. -/
def egaugeFreqDispatch (freq : String) : Except PyErr EgaugeDispatch :=
  if freq == "T" then
    .ok ⟨"electricity_egauge_minutes", "localminute"⟩
  else if freq == "15T" then
    .ok ⟨"electricity_egauge_15min", "local_15min"⟩
  else if freq == "H" then
    .ok ⟨"electricity_egauge_hours", "localhour"⟩
  else
    .error .valueError

/-- A timezone-aware timestamp: the instant is fixed, the zone is the
display zone (`dt.tz_convert` changes only the zone). -/
structure TsTz where
  instant : Int
  zone : String
deriving DecidableEq, Repr

/-- `Series.dt.tz_convert(tz)` on one timestamp. -/
def tzConvert (tz : String) (t : TsTz) : TsTz :=
  ⟨t.instant, tz⟩

/-- One result row of an egauge query: the datetime cell and the remaining
cells. -/
abbrev EgaugeRow := TsTz × List Cell

/-- What `pandas.read_sql_query` returns: a single DataFrame when
`chunksize` is `None`, else a generator of DataFrames of `chunksize` rows
each (the last chunk possibly shorter). -/
inductive PdReadResult (α : Type) where
  | frame (rows : List α)
  | chunkIter (chunks : List (List α))
deriving DecidableEq, Repr

/-- Split a row list into consecutive chunks of `n` rows (the final chunk
holds the remainder).  Fuel keeps the recursion structural; fuel equal to
the list length suffices since every step consumes at least one row. -/
def chunkListFuel (n : Nat) : Nat → List α → List (List α)
  | _, [] => []
  | 0, l => [l]
  | fuel + 1, l => l.take n :: chunkListFuel n fuel (l.drop n)

/-- Chunks of `n` rows, as pandas yields them for `chunksize=n`. -/
def chunkList (n : Nat) (l : List α) : List (List α) :=
  chunkListFuel n l.length l

/-- `pandas.read_sql_query(query, con, parse_dates=..., chunksize=...)`:
the rows the database returns for the query, either whole or chunked. -/
def pdReadSqlQuery (rows : List α) (chunksize : Option Nat) : PdReadResult α :=
  match chunksize with
  | none => .frame rows
  | some n => .chunkIter (chunkList n rows)

/-- The tail of `_read_electricity_egauge_query`
(`electricity_egauge_api.py` lines 143-149): after `pd.read_sql_query`,
the code runs `df[local_minute] = df[local_minute].dt.tz_convert(tz)` and
`df.set_index(local_minute)` unconditionally.  When `chunksize` was given,
`df` is a generator, and subscripting a generator raises `TypeError` — the
chunks are never yielded. -/
def readEgaugeInner (dbRows : List EgaugeRow) (tz : String)
    (chunksize : Option Nat) : Except PyErr (PdReadResult EgaugeRow) :=
  match pdReadSqlQuery dbRows chunksize with
  | .frame rows => .ok (.frame (rows.map (fun r => (tzConvert tz r.1, r.2))))
  | .chunkIter _ => .error .typeError

/-- The SQL text produced by formatting the query template of
`_read_electricity_egauge_query` (`columns = none` models the `"all"`
sentinel, which selects `*`). -/
def egaugeQueryStr (columns : Option (List String)) (schema table lm : String)
    (dataid : Nat) (start_time end_time : String) : String :=
  let cols := match columns with
    | none => "*"
    | some cs => String.intercalate ", " (lm :: cs)
  "SELECT " ++ cols ++ " FROM " ++ schema ++ "." ++ table ++
    " WHERE dataid=" ++ toString dataid ++ " AND " ++
    lm ++ " >= \x27" ++ start_time ++ "\x27 AND " ++
    lm ++ " < \x27" ++ end_time ++ "\x27 ORDER BY " ++ lm ++ " ASC;"

/-- `read_electricity_egauge_query`: dispatch on `freq`, build the SQL
string, then run the query against the rows the database holds; the result
records the SQL built so that "no query is built on the error path" is
visible in the model. -/
def readElectricityEgaugeQuery (schema : String) (dataid : Nat)
    (start_time end_time : String) (columns : Option (List String))
    (freq tz : String) (chunksize : Option Nat) (dbRows : List EgaugeRow) :
    Except PyErr (String × PdReadResult EgaugeRow) := do
  let d ← egaugeFreqDispatch freq
  let query := egaugeQueryStr columns schema d.table d.local_minute dataid
    start_time end_time
  let res ← readEgaugeInner dbRows tz chunksize
  .ok (query, res)

/-!
## `gas_water_api.py`: the ERT query builders

The three functions `read_gas_ert_query`, `read_water_ert_query` and
`read_water_capstone_query` (and the copies of the first two in `api.py`)
all build their kwargs dict as
`{"schema": schema, "dataid": dataid, "start_time": start_time,
"end_time": ert_end_time}` — the name `ert_end_time` is bound nowhere
(the parameter is named `end_time`), so evaluating the dict literal raises
`NameError` before `template.format` or `pd.read_sql_query` can run.  We
model Python name resolution over the names actually in scope.
-/

/-- The module-level (global) names bound in `gas_water_api.py`: the
imported names and the four function definitions. -/
def gasWaterGlobals : List String :=
  ["List", "Union", "np", "pd", "types", "sqlalchemy",
   "read_gas_ert_query", "read_electric_vehicles_table",
   "read_water_ert_query", "read_water_capstone_query"]

/-- Python name lookup: local scope, then module globals, else `NameError`. -/
def resolveName (locals : List String) (n : String) : Except PyErr Unit :=
  if n ∈ locals ∨ n ∈ gasWaterGlobals then .ok () else .error (.nameError n)

/-- The local names in scope at the `kwargs = {...}` statement of each ERT
query function: the parameters plus the already-assigned `template`. -/
def ertQueryLocals : List String :=
  ["con", "schema", "dataid", "start_time", "end_time", "tz", "template"]

/-- The value expressions of the kwargs dict literal, in source order: a
dict literal evaluates its values left to right. -/
def ertKwargsNames : List String :=
  ["schema", "dataid", "start_time", "ert_end_time"]

/-- `read_gas_ert_query` (`gas_water_api.py` lines 16-60; same body in
`api.py` lines 200-220): evaluate the kwargs dict (which raises
`NameError` on `ert_end_time`); had it succeeded, `template.format(kwargs)`
passes the dict as a single positional argument while the template has only
named fields, so the format call would raise `KeyError` — no SQL string can
ever reach `pd.read_sql_query`. -/
def readGasErtQuery (_schema : String) (_dataid : Nat)
    (_start_time _end_time _tz : String) : Except PyErr Table := do
  let _ ← ertKwargsNames.forM (resolveName ertQueryLocals)
  .error (.keyError "schema")

/-- `read_water_ert_query` (`gas_water_api.py` lines 90-134; same body in
`api.py` lines 662-682): identical kwargs bug. -/
def readWaterErtQuery (_schema : String) (_dataid : Nat)
    (_start_time _end_time _tz : String) : Except PyErr Table := do
  let _ ← ertKwargsNames.forM (resolveName ertQueryLocals)
  .error (.keyError "schema")

/-- `read_water_capstone_query` (`gas_water_api.py` lines 137-181; the
`water_ert_capstone` variant in `api.py` lines 685-705 has the same body):
identical kwargs bug. -/
def readWaterCapstoneQuery (_schema : String) (_dataid : Nat)
    (_start_time _end_time _tz : String) : Except PyErr Table := do
  let _ ← ertKwargsNames.forM (resolveName ertQueryLocals)
  .error (.keyError "schema")

/-!
## `GetSurveyData2014.py`: imputation, one-hot encoding, join
-/

/-- The ten designated thermostat-temperature columns (`temps`,
`GetSurveyData2014.py` lines 53-57). -/
def tempColumnNames : List String :=
  ["temp_summer_weekday_workday_p", "temp_summer_weekday_morning_p",
   "temp_summer_weekday_evening_p", "temp_summer_sleeping_hours_hours_p",
   "temp_summer_weekend_hours_p", "temp_winter_weekday_workday_p",
   "temp_winter_weekday_morning_p", "temp_winter_weekday_evening_p",
   "temp_winter_sleeping_hours_hours_p", "temp_winter_weekend_hours_p"]

/-- The numeric value of a cell, if any. -/
def cellNum? : Cell → Option ℚ
  | .num q => some q
  | _ => none

/-- The non-null numeric values of a column. -/
def colNums (col : Col) : List ℚ :=
  col.filterMap cellNum?

/-- Insert into a sorted list (ascending). -/
def insertSorted (q : ℚ) : List ℚ → List ℚ
  | [] => [q]
  | x :: xs => if q ≤ x then q :: x :: xs else x :: insertSorted q xs

/-- Sort ascending (insertion sort; structural so that it evaluates). -/
def sortQ (l : List ℚ) : List ℚ :=
  l.foldr insertSorted []

/-- `Series.median()` over the non-null values: the middle element of the
sorted values for odd counts, the mean of the two middle elements for even
counts, and NaN (`none`) for an empty list. -/
def medianQ (l : List ℚ) : Option ℚ :=
  let s := sortQ l
  if s.length % 2 = 1 then s[s.length / 2]?
  else
    match s[s.length / 2 - 1]?, s[s.length / 2]? with
    | some a, some b => some ((a + b) / 2)
    | _, _ => none

/-- `Series.fillna(v)`: replace the NaN cells by `v`. -/
def fillnaCol (v : Cell) (col : Col) : Col :=
  col.map (fun c => if c = .null then v else c)

/-- One pass of the temperature loop:
`surveys[t].fillna(surveys[t].median(), inplace=True)`.  When the median is
NaN (no observed value) `fillna` leaves the column unchanged. -/
def fillMedianStep (t : Table) (name : String) : Table :=
  match medianQ (colNums (getCol t name)) with
  | none => t
  | some m => setColVal t name (fillnaCol (.num m) (getCol t name))

/-- A total order on same-typed cells, used to sort mode candidates the way
pandas sorts them (ascending). -/
def cellLe (a b : Cell) : Bool :=
  match a, b with
  | .str s, .str t => s.data ≤ t.data
  | .num p, .num q => p ≤ q
  | .bool x, .bool y => !x || y
  | _, _ => true

/-- Insertion sort of cells by `cellLe`. -/
def sortCells (l : List Cell) : List Cell :=
  l.foldr ins []
where
  ins (c : Cell) : List Cell → List Cell
    | [] => [c]
    | x :: xs => if cellLe c x then c :: x :: xs else x :: ins c xs

/-- `Series.mode().iloc[0]`: the smallest among the most frequent non-null
values; `none` when there is no non-null value (then `.iloc[0]` raises
`IndexError`). -/
def modeCell (col : Col) : Option Cell :=
  let vals := col.filter (fun c => c ≠ .null)
  (sortCells vals).find? (fun v => vals.all (fun w => vals.count w ≤ vals.count v))

/-- `surveys[c].fillna(surveys[c].mode().iloc[0], inplace=True)`:
the `.iloc[0]` raises `IndexError` when the mode series is empty. -/
def fillModeStep (t : Table) (name : String) : Except PyErr Table :=
  match modeCell (getCol t name) with
  | none => .error .indexError
  | some m => .ok (setColVal t name (fillnaCol m (getCol t name)))

/-- Number of rows of a (rectangular) table. -/
def rowCount (t : Table) : Nat :=
  match t with
  | [] => 0
  | (_, c) :: _ => c.length

/-- Does row `j` hold a NaN in any column? -/
def rowHasNull (t : Table) (j : Nat) : Bool :=
  t.any (fun p => p.2.getD j .null == .null)

/-- The indices of the rows `DataFrame.dropna()` keeps: those with no NaN
in any column. -/
def keepRows (t : Table) : List Nat :=
  (List.range (rowCount t)).filter (fun j => !rowHasNull t j)

/-- `DataFrame.dropna()`: keep exactly the rows with no NaN in any column. -/
def dropnaRows (t : Table) : Table :=
  t.map (fun p => (p.1, (keepRows t).map (fun j => p.2.getD j .null)))

/-- The data-preparation block of `GetSurveyData2014.py` (lines 52-69):
the temperature median fill runs unconditionally; only afterwards does the
`impute` flag choose between the categorical mode fills plus the fixed
`pv_satisfied_p := 3` fill, and `surveys.dropna()`. -/
def imputeSurveys2014 (impute : Bool) (t : Table) : Except PyErr Table :=
  let t1 := tempColumnNames.foldl fillMedianStep t
  if impute then do
    let t2 ← fillModeStep t1 "foundation_type_p"
    let t3 ← fillModeStep t2 "income_level_p"
    let t4 ← fillModeStep t3 "programmed_p"
    .ok (setColVal t4 "pv_satisfied_p"
      (fillnaCol (.num 3) (getCol t4 "pv_satisfied_p")))
  else
    .ok (dropnaRows t1)

/-!
## One-hot encoding (`pd.get_dummies`) and the index join
-/

/-- Deduplicate keeping the first occurrence of each value (the order
`pandas` uses for observed categories). -/
def uniqueFirstAux (acc : List Cell) (l : List Cell) : List Cell :=
  l.foldl (fun acc a => if a ∈ acc then acc else acc ++ [a]) acc

/-- First-seen distinct values of a list. -/
def uniqueFirst (l : List Cell) : List Cell :=
  uniqueFirstAux [] l

/-- The indicator columns `pd.get_dummies` creates for one categorical
column: one per observed non-null value. -/
def dummyCats (col : Col) : List Cell :=
  uniqueFirst (col.filter (fun c => c ≠ .null))

/-- One row of `pd.get_dummies` output for one source column: the 0/1
indicators against each category (a NaN source value gives all zeros — no
missing-value indicator column is produced). -/
def dummyRow (cats : List Cell) (c : Cell) : List Nat :=
  cats.map (fun k => if c = k then 1 else 0)

/-- `pd.get_dummies` on one column: the indicator matrix, row-major. -/
def getDummies (col : Col) : List (List Nat) :=
  col.map (dummyRow (dummyCats col))

/-- `left.join(right, how="inner")` on a unique index: keep the left rows
whose key also appears on the right, pairing the two payloads. -/
def innerJoin {α β : Type} (l : List (Nat × α)) (r : List (Nat × β)) :
    List (Nat × α × β) :=
  l.filterMap (fun p => (r.lookup p.1).map (fun b => (p.1, p.2, b)))

deriving instance DecidableEq for Except

/-!
## Supporting lemmas
-/

theorem colNames_setColVal (t : Table) (name : String) (c : Col) :
    colNames (setColVal t name c) = colNames t := by
  simp only [colNames, setColVal, List.map_map]
  apply List.map_congr_left
  intro p _
  by_cases h : p.1 == name <;> simp [Function.comp, h]

theorem mem_colNames_dropCol {x : String} (t : Table) (name : String) :
    x ∈ colNames (dropCol t name) ↔ x ∈ colNames t ∧ x ≠ name := by
  simp only [colNames, dropCol, List.mem_map]
  constructor
  · rintro ⟨p, hp, rfl⟩
    rw [List.mem_filter] at hp
    exact ⟨⟨p, hp.1, rfl⟩, by simpa [bne_iff_ne] using hp.2⟩
  · rintro ⟨⟨p, hp, rfl⟩, hne⟩
    exact ⟨p, List.mem_filter.mpr ⟨hp, by simpa [bne_iff_ne] using hne⟩, rfl⟩

theorem colNames_addCol (t : Table) (name : String) (c : Col) :
    colNames (addCol t name c) = colNames t ++ [name] := by
  simp [addCol, colNames]

theorem applyRuleAction_names {t t' : Table} {name : String} {a : RuleAction}
    (h : applyRuleAction t name a = .ok t') {x : String} (hx : x ∈ colNames t') :
    x ∈ colNames t ∨ ∃ new f, a = .renameTo new f ∧ x = new := by
  cases a with
  | passthrough =>
      simp only [applyRuleAction] at h
      cases h
      exact .inl hx
  | dropIt =>
      simp only [applyRuleAction] at h
      cases h
      exact .inl ((mem_colNames_dropCol t name).mp hx).1
  | keep f =>
      simp only [applyRuleAction] at h
      cases hf : f (getCol t name) with
      | error e => rw [hf] at h; cases h
      | ok c =>
          rw [hf] at h
          cases h
          rw [colNames_setColVal] at hx
          exact .inl hx
  | renameTo new f =>
      simp only [applyRuleAction] at h
      cases hf : f (getCol t name) with
      | error e => rw [hf] at h; cases h
      | ok c =>
          rw [hf] at h
          cases h
          rcases (mem_colNames_dropCol _ name).mp hx with ⟨hx', -⟩
          rw [colNames_addCol] at hx'
          rcases List.mem_append.mp hx' with h1 | h1
          · exact .inl h1
          · exact .inr ⟨new, f, rfl, by simpa using h1⟩

theorem foldRules_names {rule : String → RuleAction}
    (hr : ∀ name new f, rule name = .renameTo new f →
      new = "programmable_thermostat_difficulty") :
    ∀ (names : List String) (t t' : Table),
      names.foldlM (fun acc name => applyRuleAction acc name (rule name)) t = .ok t' →
      ∀ x, x ∉ colNames t → x ≠ "programmable_thermostat_difficulty" →
        x ∉ colNames t' := by
  intro names
  induction names with
  | nil =>
      intro t t' h x hx hxn
      simp only [List.foldlM_nil] at h
      cases h
      exact hx
  | cons n ns ih =>
      intro t t' h x hx hxn
      simp only [List.foldlM_cons] at h
      cases hstep : applyRuleAction t n (rule n) with
      | error e => rw [hstep] at h; cases h
      | ok t1 =>
          rw [hstep] at h
          refine ih t1 t' h x ?_ hxn
          intro hx1
          rcases applyRuleAction_names hstep hx1 with h1 | ⟨new, f, hrn, hxe⟩
          · exact hx h1
          · exact hxn (hxe.trans (hr n new f hrn))

/-- The rename targets occurring in an ordered branch list. -/
def renameTargets (l : List (Bool × RuleAction)) : List String :=
  l.filterMap (fun p => match p.2 with | .renameTo n _ => some n | _ => none)

theorem firstMatch_renameTo {l : List (Bool × RuleAction)} {new : String}
    {f : Col → Except PyErr Col} (h : firstMatch l = .renameTo new f) :
    new ∈ renameTargets l := by
  unfold firstMatch at h
  cases hf : l.find? (fun p => p.1) with
  | none => rw [hf] at h; simp at h
  | some p =>
      rw [hf] at h
      simp only [Option.map_some', Option.getD_some] at h
      exact List.mem_filterMap.mpr ⟨p, List.mem_of_find?_eq_some hf, by rw [h]⟩

theorem rule2013_renameTo {name new : String} {f : Col → Except PyErr Col}
    (h : rule2013 name = .renameTo new f) :
    new = "programmable_thermostat_difficulty" := by
  have hm := firstMatch_renameTo h
  have he : renameTargets (rules2013 name) = ["programmable_thermostat_difficulty"] := rfl
  rw [he] at hm
  simpa using hm

theorem rule2014_renameTo {name new : String} {f : Col → Except PyErr Col}
    (h : rule2014 name = .renameTo new f) :
    new = "programmable_thermostat_difficulty" := by
  have hm := firstMatch_renameTo h
  have he : renameTargets (rules2014 name) = [] := rfl
  rw [he] at hm
  simp at hm

theorem mergeFoundationStep_no_foundation_sources (t : Table) :
    "foundation_pier_beam" ∉ colNames (mergeFoundationStep t)
    ∧ "foundation_slab" ∉ colNames (mergeFoundationStep t) := by
  constructor <;>
    · intro hmem
      unfold mergeFoundationStep at hmem
      rw [mem_colNames_dropCol] at hmem
      rcases hmem with ⟨hmem, hne⟩
      rw [mem_colNames_dropCol] at hmem
      simp_all

/-!
## Claim theorems
-/

/-- C7: the `pv_system_size` unit correction divides a parsed numeric value
by 1000 exactly when it exceeds 1000, and on every value at or below the kW
threshold it is the identity and hence idempotent:
`correct (correct x) = correct x = x`. -/
theorem unit_correction_threshold_idempotent (x : ℚ) :
    (x > 1000 → unitCorrectQ x = x / 1000)
    ∧ (x ≤ 1000 →
        unitCorrectQ x = x
        ∧ unitCorrectQ (unitCorrectQ x) = unitCorrectQ x
        ∧ unitCorrectQ (unitCorrectQ x) = x) := by
  constructor
  · intro h
    simp [unitCorrectQ, h]
  · intro h
    have hn : ¬ x > 1000 := not_lt.mpr h
    simp [unitCorrectQ, hn]

theorem unit_correction_threshold_idempotent_witness :
    ((2000 : ℚ) > 1000 ∧ unitCorrectQ 2000 = 2000 / 1000)
    ∧ ((999 : ℚ) ≤ 1000 ∧ unitCorrectQ 999 = 999
        ∧ unitCorrectQ (unitCorrectQ 999) = 999) :=
  ⟨⟨by norm_num, (unit_correction_threshold_idempotent 2000).1 (by norm_num)⟩,
   ⟨by norm_num, ((unit_correction_threshold_idempotent 999).2 (by norm_num)).1,
    ((unit_correction_threshold_idempotent 999).2 (by norm_num)).2.2⟩⟩

/-- C10: if `foundation_pier_beam` is non-empty, non-null and differs from
`"Pier and beam"`, the merge yields `"Both"` whatever `foundation_slab` is
(including empty or null); and if `foundation_pier_beam` is exactly
`"Pier and beam"` while `foundation_slab` is any non-empty non-null token,
the merge also yields `"Both"`. -/
theorem merge_foundation_both_dominant (pier slab : Cell) :
    (pier ≠ .str "" → pier ≠ .null → pier ≠ .str "Pier and beam" →
      mergeFoundationColumns pier slab = .str "Both")
    ∧ (pier = .str "Pier and beam" → slab ≠ .str "" → slab ≠ .null →
      mergeFoundationColumns pier slab = .str "Both") := by
  constructor
  · intro h1 h2 h3
    simp [mergeFoundationColumns, beq_iff_eq, h1, h2, h3]
  · intro h1 h2 h3
    subst h1
    simp [mergeFoundationColumns, beq_iff_eq, h2, h3]

theorem merge_foundation_both_dominant_witness :
    mergeFoundationColumns (.str "Slab") .null = .str "Both"
    ∧ mergeFoundationColumns (.str "Pier and beam") (.str "Concrete") = .str "Both" :=
  ⟨(merge_foundation_both_dominant (.str "Slab") .null).1
      (by decide) (by decide) (by decide),
   (merge_foundation_both_dominant (.str "Pier and beam") (.str "Concrete")).2
      rfl (by decide) (by decide)⟩

/-- C9: every call of `read_gas_ert_query`, `read_water_ert_query` and
`read_water_capstone_query` raises `NameError` on the undefined name
`ert_end_time` while evaluating the kwargs dict, before any SQL string is
formatted or any query reaches the database — no call can return a
DataFrame. -/
theorem ert_queries_raise_name_error :
    (∀ schema dataid st et tz,
      readGasErtQuery schema dataid st et tz = .error (.nameError "ert_end_time"))
    ∧ (∀ schema dataid st et tz,
      readWaterErtQuery schema dataid st et tz = .error (.nameError "ert_end_time"))
    ∧ (∀ schema dataid st et tz,
      readWaterCapstoneQuery schema dataid st et tz = .error (.nameError "ert_end_time")) := by
  refine ⟨?_, ?_, ?_⟩ <;> · intro schema dataid st et tz; rfl

set_option maxRecDepth 40000 in
/-- C4 (code bug): with a chunk size supplied, `pd.read_sql_query` returns
a generator — pandas would deliver exactly the chunks of `chunksize` rows
(500, 500, 200 over 1200 matching rows) — but the very next statement
subscripts that generator (`df[local_minute] = ...`), raising `TypeError`:
no chunked call of `_read_electricity_egauge_query` (and hence of
`read_electricity_egauge_query`) ever yields a chunk. -/
theorem egauge_chunked_read_type_error :
    ((chunkList 500 (List.range 1200)).map List.length = [500, 500, 200])
    ∧ (∀ (dbRows : List EgaugeRow) (tz : String) (n : Nat),
        readEgaugeInner dbRows tz (some n) = .error .typeError)
    ∧ (∀ (schema : String) (dataid : Nat) (st et : String)
        (columns : Option (List String)) (tz : String) (n : Nat)
        (dbRows : List EgaugeRow),
        readElectricityEgaugeQuery schema dataid st et columns "T" tz (some n) dbRows
          = .error .typeError) := by
  refine ⟨by decide, ?_, ?_⟩
  · intro dbRows tz n
    rfl
  · intro schema dataid st et columns tz n dbRows
    rfl

/-- C3: `read_electricity_egauge_query` raises `ValueError` (named
`InvalidFrequency` in the specification) exactly when `freq` is outside the supported set (T, 15T, H); the
error is raised by the dispatch step, before any SQL string is built or
any query executed (in the model no query string is produced on the error
path); each supported `freq` dispatches to the matching table and datetime
column. -/
theorem egauge_invalid_freq_spec :
    (∀ freq, freq ≠ "T" → freq ≠ "15T" → freq ≠ "H" →
      ∀ (schema : String) (dataid : Nat) (st et : String)
        (columns : Option (List String)) (tz : String)
        (chunksize : Option Nat) (dbRows : List EgaugeRow),
        readElectricityEgaugeQuery schema dataid st et columns freq tz chunksize dbRows
          = .error .valueError)
    ∧ egaugeFreqDispatch "T" = .ok ⟨"electricity_egauge_minutes", "localminute"⟩
    ∧ egaugeFreqDispatch "15T" = .ok ⟨"electricity_egauge_15min", "local_15min"⟩
    ∧ egaugeFreqDispatch "H" = .ok ⟨"electricity_egauge_hours", "localhour"⟩
    ∧ (∀ freq d, egaugeFreqDispatch freq = .ok d →
        freq = "T" ∨ freq = "15T" ∨ freq = "H") := by
  refine ⟨?_, rfl, rfl, rfl, ?_⟩
  · intro freq h1 h2 h3 schema dataid st et columns tz chunksize dbRows
    have e : egaugeFreqDispatch freq = .error .valueError := by
      simp [egaugeFreqDispatch, beq_iff_eq, h1, h2, h3]
    unfold readElectricityEgaugeQuery
    rw [e]
    rfl
  · intro freq d h
    by_cases c1 : freq = "T"
    · exact .inl c1
    by_cases c2 : freq = "15T"
    · exact .inr (.inl c2)
    by_cases c3 : freq = "H"
    · exact .inr (.inr c3)
    exfalso
    simp [egaugeFreqDispatch, beq_iff_eq, c1, c2, c3] at h

theorem egauge_invalid_freq_spec_witness :
    (("5T" : String) ≠ "T" ∧ ("5T" : String) ≠ "15T" ∧ ("5T" : String) ≠ "H"
      ∧ readElectricityEgaugeQuery "postquery" 26 "2015-01-01" "2015-02-01"
          none "5T" "US/Central" none [] = .error .valueError)
    ∧ (egaugeFreqDispatch "H" = .ok ⟨"electricity_egauge_hours", "localhour"⟩
      ∧ (("H" : String) = "T" ∨ ("H" : String) = "15T" ∨ ("H" : String) = "H")) :=
  ⟨⟨by decide, by decide, by decide,
    egauge_invalid_freq_spec.1 "5T" (by decide) (by decide) (by decide)
      "postquery" 26 "2015-01-01" "2015-02-01" none "US/Central" none []⟩,
   ⟨rfl, egauge_invalid_freq_spec.2.2.2.2 "H"
      ⟨"electricity_egauge_hours", "localhour"⟩ rfl⟩⟩

/-- C1: the foundation merge is a deterministic total function whose value
is always one of `"Pier and beam"`, `"Slab"`, `"Both"` or missing; it
satisfies the four stated equations; and after the merge both source
columns are dropped: a successful run of either survey reader leaves
neither `foundation_pier_beam` nor `foundation_slab` in the output table. -/
theorem foundation_merge_spec :
    (∀ pier slab,
      mergeFoundationColumns pier slab = .str "Pier and beam"
      ∨ mergeFoundationColumns pier slab = .str "Slab"
      ∨ mergeFoundationColumns pier slab = .str "Both"
      ∨ mergeFoundationColumns pier slab = .null)
    ∧ mergeFoundationColumns (.str "") (.str "Slab") = .str "Slab"
    ∧ mergeFoundationColumns (.str "Pier and beam") (.str "") = .str "Pier and beam"
    ∧ mergeFoundationColumns (.str "Pier and beam") (.str "Slab") = .str "Both"
    ∧ mergeFoundationColumns (.str "") (.str "") = .null
    ∧ (∀ t t', readSurvey2013 t = .ok t' →
        "foundation_pier_beam" ∉ colNames t' ∧ "foundation_slab" ∉ colNames t')
    ∧ (∀ t t', readSurvey2014 t = .ok t' →
        "foundation_pier_beam" ∉ colNames t' ∧ "foundation_slab" ∉ colNames t') := by
  refine ⟨?_, by decide, by decide, by decide, by decide, ?_, ?_⟩
  · intro pier slab
    unfold mergeFoundationColumns
    split_ifs <;> simp
  · intro t t' h
    unfold readSurvey2013 at h
    have h0 := mergeFoundationStep_no_foundation_sources t
    exact ⟨foldRules_names (fun name new f hr => rule2013_renameTo hr)
             _ _ _ h _ h0.1 (by decide),
           foldRules_names (fun name new f hr => rule2013_renameTo hr)
             _ _ _ h _ h0.2 (by decide)⟩
  · intro t t' h
    unfold readSurvey2014 at h
    have h0 := mergeFoundationStep_no_foundation_sources t
    exact ⟨foldRules_names (fun name new f hr => rule2014_renameTo hr)
             _ _ _ h _ h0.1 (by decide),
           foldRules_names (fun name new f hr => rule2014_renameTo hr)
             _ _ _ h _ h0.2 (by decide)⟩

theorem foundation_merge_spec_witness :
    ("foundation_pier_beam" ∉ colNames [("foundation", [Cell.str "Pier and beam"])]
      ∧ "foundation_slab" ∉ colNames [("foundation", [Cell.str "Pier and beam"])])
    ∧ ("foundation_pier_beam" ∉ colNames [("foundation", [Cell.null])]
      ∧ "foundation_slab" ∉ colNames [("foundation", [Cell.null])]) :=
  ⟨foundation_merge_spec.2.2.2.2.2.1
      [("foundation_pier_beam", [Cell.str "Pier and beam"]),
       ("foundation_slab", [Cell.str ""])]
      [("foundation", [Cell.str "Pier and beam"])] (by decide),
   foundation_merge_spec.2.2.2.2.2.2
      [("foundation_pier_beam", [Cell.null]),
       ("foundation_slab", [Cell.null])]
      [("foundation", [Cell.null])] (by decide)⟩

/-- A cell that a completed `to_bool` mapping may produce: a boolean or
missing. -/
def isBoolOrNull (c : Cell) : Bool :=
  match c with
  | .bool _ => true
  | .null => true
  | _ => false

/-- C2 (counterexample): `Series.replace` only maps the listed tokens, so a
2013 survey row whose `primary_residence` value is the unmapped token
`"Maybe"` keeps that raw string in the normalized output — the output is
not confined to true, false and missing. -/
theorem to_bool_residual_token_cex :
    readSurvey2013
      [("foundation_pier_beam", [Cell.str ""]),
       ("foundation_slab", [Cell.str "Slab"]),
       ("primary_residence", [Cell.str "Maybe"])]
      = .ok [("primary_residence", [Cell.str "Maybe"]),
             ("foundation", [Cell.str "Slab"])]
    ∧ ((getCol [("primary_residence", [Cell.str "Maybe"]),
                ("foundation", [Cell.str "Slab"])] "primary_residence").all
         isBoolOrNull) = false := by
  exact ⟨by decide, by decide⟩

/-- C2 (amended): for the `to_bool` columns the mapped tokens — `"Yes"`,
`"No"`, plus `"N/A"` for `retrofits_reason` and `"I dont know"` for
`programmable_thermostat_currently_programmed` — and missing inputs all
normalize into the set of true, false and missing, while any other token passes
through `Series.replace` unchanged (it is not confined to the tri-state
set). -/
theorem to_bool_mapped_tokens_amended (c : Cell) :
    ((c = .str "Yes" ∨ c = .str "No" ∨ c = .null) →
      isBoolOrNull (replaceCell yesNoMap c) = true)
    ∧ ((c = .str "Yes" ∨ c = .str "No" ∨ c = .str "N/A" ∨ c = .null) →
      isBoolOrNull (replaceCell yesNoNAMap c) = true)
    ∧ ((c = .str "Yes" ∨ c = .str "No" ∨ c = .str "I dont know" ∨ c = .null) →
      isBoolOrNull (replaceCell yesNoIDKMap c) = true)
    ∧ (c ≠ .str "Yes" → c ≠ .str "No" → replaceCell yesNoMap c = c)
    ∧ (c ≠ .str "Yes" → c ≠ .str "No" → c ≠ .str "N/A" →
      replaceCell yesNoNAMap c = c)
    ∧ (c ≠ .str "Yes" → c ≠ .str "No" → c ≠ .str "I dont know" →
      replaceCell yesNoIDKMap c = c) := by
  refine ⟨?_, ?_, ?_, ?_, ?_, ?_⟩
  · rintro (rfl | rfl | rfl) <;> decide
  · rintro (rfl | rfl | rfl | rfl) <;> decide
  · rintro (rfl | rfl | rfl | rfl) <;> decide
  · intro h1 h2
    simp [replaceCell, yesNoMap, List.find?_cons, beq_iff_eq, Ne.symm h1, Ne.symm h2]
  · intro h1 h2 h3
    simp [replaceCell, yesNoNAMap, yesNoMap, List.find?_cons, beq_iff_eq,
      Ne.symm h1, Ne.symm h2, Ne.symm h3]
  · intro h1 h2 h3
    simp [replaceCell, yesNoIDKMap, yesNoMap, List.find?_cons, beq_iff_eq,
      Ne.symm h1, Ne.symm h2, Ne.symm h3]

theorem to_bool_mapped_tokens_amended_witness :
    (isBoolOrNull (replaceCell yesNoMap (.str "Yes")) = true)
    ∧ (isBoolOrNull (replaceCell yesNoNAMap (.str "N/A")) = true)
    ∧ (isBoolOrNull (replaceCell yesNoIDKMap (.str "I dont know")) = true)
    ∧ (replaceCell yesNoMap (.str "Maybe") = .str "Maybe")
    ∧ (replaceCell yesNoNAMap (.str "Maybe") = .str "Maybe")
    ∧ (replaceCell yesNoIDKMap (.str "Maybe") = .str "Maybe") :=
  ⟨(to_bool_mapped_tokens_amended (.str "Yes")).1 (.inl rfl),
   (to_bool_mapped_tokens_amended (.str "N/A")).2.1 (.inr (.inr (.inl rfl))),
   (to_bool_mapped_tokens_amended (.str "I dont know")).2.2.1 (.inr (.inr (.inl rfl))),
   (to_bool_mapped_tokens_amended (.str "Maybe")).2.2.2.1 (by decide) (by decide),
   (to_bool_mapped_tokens_amended (.str "Maybe")).2.2.2.2.1 (by decide) (by decide) (by decide),
   (to_bool_mapped_tokens_amended (.str "Maybe")).2.2.2.2.2 (by decide) (by decide) (by decide)⟩

theorem firstMatch_no_match {l : List (Bool × RuleAction)}
    (h : l.any (fun p => p.1) = false) : firstMatch l = .passthrough := by
  unfold firstMatch
  have hn : l.find? (fun p => p.1) = none := by
    rw [List.find?_eq_none]
    intro x hx
    rw [List.any_eq_false] at h
    simpa using h x hx
  simp [hn]

/-- C6 (counterexample): a column matching no branch of either rule chain —
here `dataid` — is passed through unchanged and the reader succeeds: the
normalizer never fails with an `UnknownColumnRule`-style error on unknown
columns. -/
theorem unknown_column_silent_cex :
    matchesRule2013 "dataid" = false
    ∧ matchesRule2014 "dataid" = false
    ∧ readSurvey2013
        [("foundation_pier_beam", [Cell.null]),
         ("foundation_slab", [Cell.null]),
         ("dataid", [Cell.str "123"])]
        = .ok [("dataid", [Cell.str "123"]), ("foundation", [Cell.null])]
    ∧ readSurvey2014
        [("foundation_pier_beam", [Cell.null]),
         ("foundation_slab", [Cell.null]),
         ("dataid", [Cell.str "123"])]
        = .ok [("dataid", [Cell.str "123"]), ("foundation", [Cell.null])] := by
  exact ⟨by decide, by decide, by decide, by decide⟩

/-- C6 (amended): when a column name matches no branch of the survey-year
rule chain, the dispatcher falls through to the default branch and the
column is silently passed through unchanged (no error is raised). -/
theorem unmatched_column_passthrough (name : String) (t : Table)
    (h13 : matchesRule2013 name = false) (h14 : matchesRule2014 name = false) :
    rule2013 name = .passthrough ∧ rule2014 name = .passthrough
    ∧ applyRuleAction t name (rule2013 name) = .ok t
    ∧ applyRuleAction t name (rule2014 name) = .ok t := by
  have h13' : (rules2013 name).any (fun p => p.1) = false := h13
  have h14' : (rules2014 name).any (fun p => p.1) = false := h14
  have p13 : rule2013 name = .passthrough := firstMatch_no_match h13'
  have p14 : rule2014 name = .passthrough := firstMatch_no_match h14'
  exact ⟨p13, p14, by rw [p13]; rfl, by rw [p14]; rfl⟩

theorem unmatched_column_passthrough_witness :
    matchesRule2013 "dataid2" = false ∧ matchesRule2014 "dataid2" = false
    ∧ (rule2013 "dataid2" = .passthrough ∧ rule2014 "dataid2" = .passthrough
      ∧ applyRuleAction [("dataid2", [Cell.str "77"])] "dataid2" (rule2013 "dataid2")
          = .ok [("dataid2", [Cell.str "77"])]
      ∧ applyRuleAction [("dataid2", [Cell.str "77"])] "dataid2" (rule2014 "dataid2")
          = .ok [("dataid2", [Cell.str "77"])]) :=
  ⟨by decide, by decide,
   unmatched_column_passthrough "dataid2" [("dataid2", [Cell.str "77"])]
     (by decide) (by decide)⟩

/-- Does a column hold at least one numeric value? -/
def hasNum (col : Col) : Bool :=
  col.any (fun c => (cellNum? c).isSome)

/-- Does a column hold at least one non-null value? -/
def hasVal (col : Col) : Bool :=
  col.any (fun c => c != .null)

theorem find?_setColVal (t : Table) (name : String) (c : Col) (m : String) :
    (setColVal t name c).find? (fun p => p.1 == m)
      = (t.find? (fun p => p.1 == m)).map
          (fun p => if p.1 == name then (p.1, c) else p) := by
  unfold setColVal
  have hfn : ((fun p => p.1 == m) ∘ fun p => if (p.1 == name) = true then (p.1, c) else p)
      = (fun (p : String × Col) => p.1 == m) := by
    funext q
    by_cases h : q.1 == name <;> simp [Function.comp, h]
  rw [List.find?_map, hfn]

theorem getCol_setColVal_ne (t : Table) {name m : String} (c : Col)
    (h : m ≠ name) : getCol (setColVal t name c) m = getCol t m := by
  unfold getCol
  rw [find?_setColVal]
  cases hf : t.find? (fun p => p.1 == m) with
  | none => rfl
  | some p =>
      have hp := List.find?_some hf
      have hpm : p.1 = m := by simpa using hp
      have hne : p.1 ≠ name := by rw [hpm]; exact h
      simp [hne]

theorem getCol_setColVal_self (t : Table) (name : String) (c : Col) :
    getCol (setColVal t name c) name = c
    ∨ (getCol (setColVal t name c) name = [] ∧ getCol t name = []) := by
  unfold getCol
  rw [find?_setColVal]
  cases hf : t.find? (fun p => p.1 == name) with
  | none => exact .inr ⟨rfl, rfl⟩
  | some p =>
      have hp := List.find?_some hf
      simp only [Option.map_some', Option.getD_some]
      rw [if_pos hp]
      exact .inl rfl

theorem fillnaCol_no_null {v : Cell} (hv : v ≠ .null) (col : Col) :
    Cell.null ∉ fillnaCol v col := by
  intro hmem
  rw [fillnaCol, List.mem_map] at hmem
  rcases hmem with ⟨c, -, hc⟩
  by_cases h : c = .null
  · rw [if_pos h] at hc; exact hv hc
  · rw [if_neg h] at hc; exact h hc

theorem mem_fillnaCol_of_ne {c : Cell} (hc : c ≠ .null) {col : Col}
    (h : c ∈ col) (v : Cell) : c ∈ fillnaCol v col :=
  List.mem_map.mpr ⟨c, h, if_neg hc⟩

theorem cellNum?_isSome_ne_null {c : Cell} (h : (cellNum? c).isSome) :
    c ≠ .null := by
  cases c <;> simp_all [cellNum?]

theorem hasNum_fillnaCol {col : Col} (h : hasNum col = true) (v : Cell) :
    hasNum (fillnaCol v col) = true := by
  rw [hasNum, List.any_eq_true] at h ⊢
  rcases h with ⟨c, hc, hs⟩
  exact ⟨c, mem_fillnaCol_of_ne (cellNum?_isSome_ne_null (by simpa using hs)) hc v,
    hs⟩

theorem hasVal_fillnaCol {col : Col} (h : hasVal col = true) (v : Cell) :
    hasVal (fillnaCol v col) = true := by
  rw [hasVal, List.any_eq_true] at h ⊢
  rcases h with ⟨c, hc, hs⟩
  have hcn : c ≠ .null := by simpa using hs
  exact ⟨c, mem_fillnaCol_of_ne hcn hc v, hs⟩

theorem setColVal_fillna_no_null (t : Table) (name : String) {v : Cell}
    (hv : v ≠ .null) :
    Cell.null ∉ getCol (setColVal t name (fillnaCol v (getCol t name))) name := by
  rcases getCol_setColVal_self t name (fillnaCol v (getCol t name)) with h1 | ⟨h1, -⟩ <;>
    rw [h1]
  · exact fillnaCol_no_null hv _
  · simp

theorem length_insertSorted (q : ℚ) (l : List ℚ) :
    (insertSorted q l).length = l.length + 1 := by
  induction l with
  | nil => rfl
  | cons x xs ih => by_cases h : q ≤ x <;> simp [insertSorted, h, ih]

theorem length_sortQ (l : List ℚ) : (sortQ l).length = l.length := by
  induction l with
  | nil => rfl
  | cons x xs ih =>
      simp only [sortQ, List.foldr_cons] at *
      rw [length_insertSorted, ih, List.length_cons]

theorem medianQ_isSome {l : List ℚ} (h : l ≠ []) : (medianQ l).isSome := by
  unfold medianQ
  have hl : (sortQ l).length = l.length := length_sortQ l
  have hpos : 0 < (sortQ l).length := by
    rw [hl]
    exact List.length_pos.mpr h
  by_cases hp : (sortQ l).length % 2 = 1
  · simp only [hp, if_true]
    rw [List.getElem?_eq_getElem (Nat.div_lt_self hpos (by norm_num))]
    simp
  · simp only [hp, if_false]
    have h2 : (sortQ l).length / 2 < (sortQ l).length :=
      Nat.div_lt_self hpos (by norm_num)
    have h1 : (sortQ l).length / 2 - 1 < (sortQ l).length := by omega
    rw [List.getElem?_eq_getElem h1, List.getElem?_eq_getElem h2]
    simp

theorem colNums_ne_nil_of_hasNum {col : Col} (h : hasNum col = true) :
    colNums col ≠ [] := by
  rw [hasNum, List.any_eq_true] at h
  rcases h with ⟨c, hc, hs⟩
  intro he
  rw [colNums, List.filterMap_eq_nil_iff] at he
  have := he c hc
  simp [this] at hs

theorem getCol_fillMedianStep_ne (t : Table) {name m : String} (h : m ≠ name) :
    getCol (fillMedianStep t name) m = getCol t m := by
  unfold fillMedianStep
  cases medianQ (colNums (getCol t name)) with
  | none => rfl
  | some x => exact getCol_setColVal_ne t _ h

theorem fillMedianStep_no_null_self {t : Table} {name : String}
    (h : hasNum (getCol t name) = true) :
    Cell.null ∉ getCol (fillMedianStep t name) name := by
  unfold fillMedianStep
  obtain ⟨x, hx⟩ := Option.isSome_iff_exists.mp
    (medianQ_isSome (colNums_ne_nil_of_hasNum h))
  rw [hx]
  exact setColVal_fillna_no_null t name (by simp)

theorem fillMedianStep_preserves_no_null {t : Table} {name m : String}
    (h : Cell.null ∉ getCol t m) :
    Cell.null ∉ getCol (fillMedianStep t name) m := by
  by_cases he : m = name
  · subst he
    unfold fillMedianStep
    cases medianQ (colNums (getCol t m)) with
    | none => exact h
    | some x => exact setColVal_fillna_no_null t m (by simp)
  · rw [getCol_fillMedianStep_ne t he]
    exact h

theorem fillMedianStep_preserves_hasNum {t : Table} {name m : String}
    (h : hasNum (getCol t m) = true) :
    hasNum (getCol (fillMedianStep t name) m) = true := by
  by_cases he : m = name
  · subst he
    unfold fillMedianStep
    cases medianQ (colNums (getCol t m)) with
    | none => exact h
    | some x =>
        rcases getCol_setColVal_self t m (fillnaCol (.num x) (getCol t m)) with h1 | ⟨-, h2⟩
        · rw [h1]
          exact hasNum_fillnaCol h _
        · rw [h2] at h
          simp [hasNum] at h
  · rw [getCol_fillMedianStep_ne t he]
    exact h

theorem fillMedianStep_preserves_hasVal {t : Table} {name m : String}
    (h : hasVal (getCol t m) = true) :
    hasVal (getCol (fillMedianStep t name) m) = true := by
  by_cases he : m = name
  · subst he
    unfold fillMedianStep
    cases medianQ (colNums (getCol t m)) with
    | none => exact h
    | some x =>
        rcases getCol_setColVal_self t m (fillnaCol (.num x) (getCol t m)) with h1 | ⟨-, h2⟩
        · rw [h1]
          exact hasVal_fillnaCol h _
        · rw [h2] at h
          simp [hasVal] at h
  · rw [getCol_fillMedianStep_ne t he]
    exact h

theorem foldFill_preserves_no_null (names : List String) (t : Table)
    {m : String} (h : Cell.null ∉ getCol t m) :
    Cell.null ∉ getCol (names.foldl fillMedianStep t) m := by
  induction names generalizing t with
  | nil => exact h
  | cons n ns ih => exact ih _ (fillMedianStep_preserves_no_null h)

theorem foldFill_preserves_hasVal (names : List String) (t : Table)
    {m : String} (h : hasVal (getCol t m) = true) :
    hasVal (getCol (names.foldl fillMedianStep t) m) = true := by
  induction names generalizing t with
  | nil => exact h
  | cons n ns ih => exact ih _ (fillMedianStep_preserves_hasVal h)

theorem foldFill_no_null_of_hasNum (names : List String) (t : Table)
    (h : ∀ n ∈ names, hasNum (getCol t n) = true) :
    ∀ n ∈ names, Cell.null ∉ getCol (names.foldl fillMedianStep t) n := by
  induction names generalizing t with
  | nil => intro n hn; cases hn
  | cons n0 ns ih =>
      intro n hn
      simp only [List.foldl_cons]
      rcases List.mem_cons.mp hn with rfl | hn'
      · exact foldFill_preserves_no_null ns _
          (fillMedianStep_no_null_self (h n (List.mem_cons_self n ns)))
      · exact ih (fillMedianStep t n0)
          (fun x hx => fillMedianStep_preserves_hasNum (h x (List.mem_cons_of_mem _ hx)))
          n hn'

theorem mem_sortCells_ins (c : Cell) (l : List Cell) (a : Cell) :
    a ∈ sortCells.ins c l ↔ a = c ∨ a ∈ l := by
  induction l with
  | nil => simp [sortCells.ins]
  | cons x xs ih =>
      by_cases h : cellLe c x <;> (simp [sortCells.ins, h, ih]; try tauto)

theorem mem_sortCells (l : List Cell) (a : Cell) : a ∈ sortCells l ↔ a ∈ l := by
  induction l with
  | nil => simp [sortCells]
  | cons x xs ih =>
      simp only [sortCells, List.foldr_cons] at *
      rw [mem_sortCells_ins]
      simp [ih]

theorem modeCell_some_of_hasVal {col : Col} (h : hasVal col = true) :
    ∃ m, modeCell col = some m ∧ m ≠ .null := by
  unfold modeCell
  have hvne : col.filter (fun c => c ≠ .null) ≠ [] := by
    rw [hasVal, List.any_eq_true] at h
    rcases h with ⟨c, hc, hcb⟩
    intro he
    have hmem : c ∈ col.filter (fun c => c ≠ .null) :=
      List.mem_filter.mpr ⟨hc, by simpa using hcb⟩
    rw [he] at hmem
    cases hmem
  obtain ⟨v, hvmem⟩ : ∃ v, v ∈ List.argmax
      (fun v => (col.filter (fun c => c ≠ .null)).count v)
      (col.filter (fun c => c ≠ .null)) := by
    cases hh : List.argmax (fun v => (col.filter (fun c => c ≠ .null)).count v)
        (col.filter (fun c => c ≠ .null)) with
    | none => exact absurd (List.argmax_eq_none.mp hh) hvne
    | some v => exact ⟨v, by simp [hh]⟩
  have hvin : v ∈ col.filter (fun c => c ≠ .null) := List.argmax_mem hvmem
  have hpred : ((col.filter (fun c => c ≠ .null)).all
      (fun w => (col.filter (fun c => c ≠ .null)).count w
        ≤ (col.filter (fun c => c ≠ .null)).count v)) = true := by
    rw [List.all_eq_true]
    intro w hw
    simpa using List.le_of_mem_argmax hw hvmem
  have hex : ∃ x, x ∈ sortCells (col.filter (fun c => c ≠ .null))
      ∧ ((col.filter (fun c => c ≠ .null)).all
          (fun w => (col.filter (fun c => c ≠ .null)).count w
            ≤ (col.filter (fun c => c ≠ .null)).count x)) = true :=
    ⟨v, (mem_sortCells _ v).mpr hvin, hpred⟩
  obtain ⟨m, hm⟩ := Option.isSome_iff_exists.mp (List.find?_isSome.mpr hex)
  refine ⟨m, hm, ?_⟩
  have hmem := List.mem_of_find?_eq_some hm
  have hmv : m ∈ col.filter (fun c => c ≠ .null) := (mem_sortCells _ m).mp hmem
  have := List.mem_filter.mp hmv
  simpa using this.2

theorem fillModeStep_ok {t : Table} {name : String}
    (h : hasVal (getCol t name) = true) :
    ∃ t', fillModeStep t name = .ok t'
      ∧ Cell.null ∉ getCol t' name
      ∧ ∀ x, x ≠ name → getCol t' x = getCol t x := by
  obtain ⟨m, hm, hmn⟩ := modeCell_some_of_hasVal h
  refine ⟨setColVal t name (fillnaCol m (getCol t name)), ?_, ?_, ?_⟩
  · unfold fillModeStep
    rw [hm]
  · exact setColVal_fillna_no_null t name hmn
  · intro x hx
    exact getCol_setColVal_ne t _ hx

theorem find?_map_fst {t : Table} {g : String × Col → Col} {m : String} :
    (t.map (fun p => (p.1, g p))).find? (fun p => p.1 == m)
      = (t.find? (fun p => p.1 == m)).map (fun p => (p.1, g p)) := by
  rw [List.find?_map]
  have he : ((fun (p : String × Col) => p.1 == m)
      ∘ fun (p : String × Col) => (p.1, g p)) = (fun (p : String × Col) => p.1 == m) := by
    funext q
    rfl
  rw [he]

theorem dropnaRows_no_null (t : Table) (name : String) :
    Cell.null ∉ getCol (dropnaRows t) name := by
  intro hmem
  unfold getCol dropnaRows at hmem
  rw [find?_map_fst] at hmem
  cases hf : t.find? (fun p => p.1 == name) with
  | none =>
      rw [hf] at hmem
      cases hmem
  | some p =>
      rw [hf] at hmem
      simp only [Option.map_some', Option.getD_some] at hmem
      rw [List.mem_map] at hmem
      rcases hmem with ⟨j, hj, hnull⟩
      rw [keepRows, List.mem_filter] at hj
      have hrow : rowHasNull t j = false := by simpa using hj.2
      rw [rowHasNull, List.any_eq_false] at hrow
      have hthis := hrow p (List.mem_of_find?_eq_some hf)
      rw [hnull] at hthis
      simp at hthis

theorem except_bind_ok {ε α β : Type} (a : α) (f : α → Except ε β) :
    (Except.ok a : Except ε α) >>= f = f a :=
  rfl

/-- The input table of the imputation counterexample: three rows; only the
first designated temperature column has missing values (rows 2 and 3), and
every other column is fully observed. -/
def surveysCexTable : Table :=
  [("temp_summer_weekday_workday_p", [Cell.num 20, Cell.null, Cell.null]),
   ("temp_summer_weekday_morning_p", [Cell.num 21, Cell.num 21, Cell.num 21]),
   ("temp_summer_weekday_evening_p", [Cell.num 21, Cell.num 21, Cell.num 21]),
   ("temp_summer_sleeping_hours_hours_p", [Cell.num 21, Cell.num 21, Cell.num 21]),
   ("temp_summer_weekend_hours_p", [Cell.num 21, Cell.num 21, Cell.num 21]),
   ("temp_winter_weekday_workday_p", [Cell.num 21, Cell.num 21, Cell.num 21]),
   ("temp_winter_weekday_morning_p", [Cell.num 21, Cell.num 21, Cell.num 21]),
   ("temp_winter_weekday_evening_p", [Cell.num 21, Cell.num 21, Cell.num 21]),
   ("temp_winter_sleeping_hours_hours_p", [Cell.num 21, Cell.num 21, Cell.num 21]),
   ("temp_winter_weekend_hours_p", [Cell.num 21, Cell.num 21, Cell.num 21]),
   ("foundation_type_p", [Cell.str "Slab", Cell.str "Slab", Cell.str "Slab"]),
   ("income_level_p", [Cell.str "low", Cell.str "low", Cell.str "low"]),
   ("programmed_p", [Cell.str "Yes", Cell.str "Yes", Cell.str "Yes"]),
   ("pv_satisfied_p", [Cell.num 2, Cell.num 2, Cell.num 2])]

/-- The table the script actually produces from `surveysCexTable` with
`impute = False`: the temperature column was median-filled (median 20) and
`dropna` then found nothing left to drop — all three rows survive. -/
def surveysCexOut : Table :=
  [("temp_summer_weekday_workday_p", [Cell.num 20, Cell.num 20, Cell.num 20]),
   ("temp_summer_weekday_morning_p", [Cell.num 21, Cell.num 21, Cell.num 21]),
   ("temp_summer_weekday_evening_p", [Cell.num 21, Cell.num 21, Cell.num 21]),
   ("temp_summer_sleeping_hours_hours_p", [Cell.num 21, Cell.num 21, Cell.num 21]),
   ("temp_summer_weekend_hours_p", [Cell.num 21, Cell.num 21, Cell.num 21]),
   ("temp_winter_weekday_workday_p", [Cell.num 21, Cell.num 21, Cell.num 21]),
   ("temp_winter_weekday_morning_p", [Cell.num 21, Cell.num 21, Cell.num 21]),
   ("temp_winter_weekday_evening_p", [Cell.num 21, Cell.num 21, Cell.num 21]),
   ("temp_winter_sleeping_hours_hours_p", [Cell.num 21, Cell.num 21, Cell.num 21]),
   ("temp_winter_weekend_hours_p", [Cell.num 21, Cell.num 21, Cell.num 21]),
   ("foundation_type_p", [Cell.str "Slab", Cell.str "Slab", Cell.str "Slab"]),
   ("income_level_p", [Cell.str "low", Cell.str "low", Cell.str "low"]),
   ("programmed_p", [Cell.str "Yes", Cell.str "Yes", Cell.str "Yes"]),
   ("pv_satisfied_p", [Cell.num 2, Cell.num 2, Cell.num 2])]

/-- C5 (counterexample): with `impute = False`, rows 2 and 3 have a missing
value in a designated numeric column (`temp_summer_weekday_workday_p`), yet
all three rows are present in the output: the temperature median fill runs
before — and regardless of — the `impute` flag, so `dropna` finds nothing
to drop. -/
theorem impute_false_keeps_median_filled_rows_cex :
    imputeSurveys2014 false surveysCexTable = .ok surveysCexOut
    ∧ rowCount surveysCexOut = 3
    ∧ (getCol surveysCexTable "temp_summer_weekday_workday_p").get? 1 = some Cell.null := by
  exact ⟨by decide, by decide, by decide⟩

/-- C5 (amended): the temperature median fill is unconditional, so the
`impute` flag only governs what happens next.  With `impute = true` (and
each designated column holding at least one observed value) the categorical
columns are mode-filled, `pv_satisfied_p` is filled with the neutral value
3, and no designated column retains a missing value.  With
`impute = false` the output is `dropna` of the *median-filled* table: every
row with a remaining missing value in any column is dropped (so no column
of the output retains a missing value), but a row whose only missing values
were temperatures survives, median-filled. -/
theorem impute_flag_amended (t : Table)
    (htemps : ∀ n ∈ tempColumnNames, hasNum (getCol t n) = true)
    (hf : hasVal (getCol t "foundation_type_p") = true)
    (hi : hasVal (getCol t "income_level_p") = true)
    (hp : hasVal (getCol t "programmed_p") = true) :
    (∃ t', imputeSurveys2014 true t = .ok t'
      ∧ (∀ n ∈ tempColumnNames, Cell.null ∉ getCol t' n)
      ∧ Cell.null ∉ getCol t' "foundation_type_p"
      ∧ Cell.null ∉ getCol t' "income_level_p"
      ∧ Cell.null ∉ getCol t' "programmed_p"
      ∧ Cell.null ∉ getCol t' "pv_satisfied_p")
    ∧ (imputeSurveys2014 false t
        = .ok (dropnaRows (tempColumnNames.foldl fillMedianStep t))
      ∧ ∀ name, Cell.null ∉
          getCol (dropnaRows (tempColumnNames.foldl fillMedianStep t)) name) := by
  have hsep : ∀ n ∈ tempColumnNames,
      n ≠ "pv_satisfied_p" ∧ n ≠ "programmed_p" ∧ n ≠ "income_level_p"
        ∧ n ≠ "foundation_type_p" := by decide
  constructor
  · have htempsnn := foldFill_no_null_of_hasNum tempColumnNames t htemps
    have hf1 := foldFill_preserves_hasVal tempColumnNames t hf
    have hi1 := foldFill_preserves_hasVal tempColumnNames t hi
    have hp1 := foldFill_preserves_hasVal tempColumnNames t hp
    obtain ⟨t2, h2, h2nn, h2o⟩ := fillModeStep_ok hf1
    have hi2 : hasVal (getCol t2 "income_level_p") = true := by
      rw [h2o _ (by decide)]
      exact hi1
    obtain ⟨t3, h3, h3nn, h3o⟩ := fillModeStep_ok hi2
    have hp3 : hasVal (getCol t3 "programmed_p") = true := by
      rw [h3o _ (by decide), h2o _ (by decide)]
      exact hp1
    obtain ⟨t4, h4, h4nn, h4o⟩ := fillModeStep_ok hp3
    refine ⟨setColVal t4 "pv_satisfied_p"
        (fillnaCol (.num 3) (getCol t4 "pv_satisfied_p")), ?_, ?_, ?_, ?_, ?_, ?_⟩
    · simp only [imputeSurveys2014, eq_self_iff_true, if_true, h2, h3, h4,
        except_bind_ok]
    · intro n hn
      obtain ⟨n1, n2, n3, n4⟩ := hsep n hn
      rw [getCol_setColVal_ne _ _ n1, h4o _ n2, h3o _ n3, h2o _ n4]
      exact htempsnn n hn
    · rw [getCol_setColVal_ne _ _ (by decide), h4o _ (by decide), h3o _ (by decide)]
      exact h2nn
    · rw [getCol_setColVal_ne _ _ (by decide), h4o _ (by decide)]
      exact h3nn
    · rw [getCol_setColVal_ne _ _ (by decide)]
      exact h4nn
    · exact setColVal_fillna_no_null t4 "pv_satisfied_p" (by simp)
  · constructor
    · simp [imputeSurveys2014]
    · intro name
      exact dropnaRows_no_null _ name

theorem impute_flag_amended_witness :
    (∃ t', imputeSurveys2014 true surveysCexTable = .ok t'
      ∧ (∀ n ∈ tempColumnNames, Cell.null ∉ getCol t' n)
      ∧ Cell.null ∉ getCol t' "foundation_type_p"
      ∧ Cell.null ∉ getCol t' "income_level_p"
      ∧ Cell.null ∉ getCol t' "programmed_p"
      ∧ Cell.null ∉ getCol t' "pv_satisfied_p")
    ∧ (imputeSurveys2014 false surveysCexTable
        = .ok (dropnaRows (tempColumnNames.foldl fillMedianStep surveysCexTable))
      ∧ ∀ name, Cell.null ∉
          getCol (dropnaRows (tempColumnNames.foldl fillMedianStep surveysCexTable)) name) :=
  impute_flag_amended surveysCexTable (by decide) (by decide) (by decide) (by decide)

theorem mem_uniqueFirstAux (acc l : List Cell) (a : Cell) :
    a ∈ uniqueFirstAux acc l ↔ a ∈ acc ∨ a ∈ l := by
  induction l generalizing acc with
  | nil => simp [uniqueFirstAux]
  | cons b bs ih =>
      rw [show uniqueFirstAux acc (b :: bs)
            = uniqueFirstAux (if b ∈ acc then acc else acc ++ [b]) bs from rfl,
          ih]
      by_cases h : b ∈ acc <;> simp [h, List.mem_append] <;> aesop

theorem nodup_uniqueFirstAux (acc l : List Cell) (h : acc.Nodup) :
    (uniqueFirstAux acc l).Nodup := by
  induction l generalizing acc with
  | nil => exact h
  | cons b bs ih =>
      rw [show uniqueFirstAux acc (b :: bs)
            = uniqueFirstAux (if b ∈ acc then acc else acc ++ [b]) bs from rfl]
      apply ih
      by_cases hb : b ∈ acc
      · simpa [hb] using h
      · rw [if_neg hb]
        rw [List.nodup_append]
        refine ⟨h, List.nodup_singleton b, fun a ha hab => ?_⟩
        simp only [List.mem_singleton] at hab
        subst hab
        exact hb ha

theorem mem_uniqueFirst (l : List Cell) (a : Cell) :
    a ∈ uniqueFirst l ↔ a ∈ l := by
  rw [uniqueFirst, mem_uniqueFirstAux]
  simp

theorem nodup_uniqueFirst (l : List Cell) : (uniqueFirst l).Nodup :=
  nodup_uniqueFirstAux [] l List.nodup_nil

theorem sum_dummyRow (cats : List Cell) (c : Cell) :
    (dummyRow cats c).sum = cats.count c := by
  induction cats with
  | nil => rfl
  | cons k ks ih =>
      simp only [dummyRow, List.map_cons, List.sum_cons, List.count_cons] at *
      rw [ih]
      by_cases h : c = k
      · subst h
        simp [Nat.add_comm]
      · have hb : (k == c) = false := by
          simp only [beq_eq_false_iff_ne, ne_eq]
          exact fun he => h he.symm
        simp [h, hb]

theorem count_dummyCats_of_mem {col : Col} {c : Cell} (hc : c ∈ col) :
    (dummyCats col).count c = if c = .null then 0 else 1 := by
  by_cases h : c = .null
  · rw [if_pos h]
    apply List.count_eq_zero.mpr
    intro hmem
    simp only [dummyCats] at hmem
    rw [mem_uniqueFirst] at hmem
    have := (List.mem_filter.mp hmem).2
    simp [h] at this
  · rw [if_neg h]
    apply List.count_eq_one_of_mem (nodup_uniqueFirst _)
    show c ∈ uniqueFirst (col.filter (fun c => c ≠ .null))
    rw [mem_uniqueFirst]
    exact List.mem_filter.mpr ⟨hc, by simpa using h⟩

theorem lookup_isSome_iff {β : Type} (r : List (Nat × β)) (k : Nat) :
    (r.lookup k).isSome ↔ k ∈ r.map Prod.fst := by
  induction r with
  | nil => simp
  | cons p ps ih =>
      obtain ⟨k2, v⟩ := p
      by_cases h : k = k2
      · subst h
        simp [List.lookup]
      · have hb : (k == k2) = false := by simpa using h
        simp [List.lookup, hb, h, ih]

theorem mem_innerJoin_keys {α β : Type} (l : List (Nat × α)) (r : List (Nat × β))
    (k : Nat) :
    k ∈ (innerJoin l r).map Prod.fst ↔ k ∈ l.map Prod.fst ∧ k ∈ r.map Prod.fst := by
  constructor
  · intro h
    rw [List.mem_map] at h
    obtain ⟨q, hq, rfl⟩ := h
    rw [innerJoin, List.mem_filterMap] at hq
    obtain ⟨p, hp, hmap⟩ := hq
    cases hr : r.lookup p.1 with
    | none => rw [hr] at hmap; cases hmap
    | some b =>
        rw [hr] at hmap
        simp only [Option.map_some'] at hmap
        cases hmap
        exact ⟨List.mem_map.mpr ⟨p, hp, rfl⟩,
          (lookup_isSome_iff r p.1).mp (by simp [hr])⟩
  · rintro ⟨hl, hr⟩
    rw [List.mem_map] at hl
    obtain ⟨p, hp, rfl⟩ := hl
    obtain ⟨b, hb⟩ := Option.isSome_iff_exists.mp ((lookup_isSome_iff r p.1).mpr hr)
    exact List.mem_map.mpr ⟨(p.1, p.2, b),
      List.mem_filterMap.mpr ⟨p, hp, by rw [hb]; rfl⟩, rfl⟩

/-- C8: `pd.get_dummies` produces one indicator column per observed
non-null category; for every row the indicators of one source column sum
to exactly 1 when the source value is present and to 0 when it was missing
(no missing-value indicator column exists); and the index join of
`surveys.join(surveysOHE, how="inner")` has inner-join semantics: a key
appears in the joined result exactly when it appears on both sides, so any
row lacking a key match on either side is absent. -/
theorem one_hot_sum_inner_join :
    (∀ (col : Col) (c : Cell), c ∈ col →
      (dummyRow (dummyCats col) c).sum = if c = .null then 0 else 1)
    ∧ (∀ (α β : Type) (l : List (Nat × α)) (r : List (Nat × β)) (k : Nat),
      k ∈ (innerJoin l r).map Prod.fst
        ↔ k ∈ l.map Prod.fst ∧ k ∈ r.map Prod.fst) := by
  constructor
  · intro col c hc
    rw [sum_dummyRow, count_dummyCats_of_mem hc]
  · intro α β l r k
    exact mem_innerJoin_keys l r k

theorem one_hot_sum_inner_join_witness :
    ((dummyRow (dummyCats [Cell.str "Slab", Cell.null, Cell.str "Both"])
        (Cell.str "Slab")).sum = 1)
    ∧ ((dummyRow (dummyCats [Cell.str "Slab", Cell.null, Cell.str "Both"])
        Cell.null).sum = 0)
    ∧ (26 ∈ (innerJoin [(26, [Cell.num 1])] [(26, [Cell.num 2]), (59, [Cell.num 3])]).map
          Prod.fst)
    ∧ (59 ∉ (innerJoin [(26, [Cell.num 1])] [(26, [Cell.num 2]), (59, [Cell.num 3])]).map
          Prod.fst) :=
  ⟨by
    have h := one_hot_sum_inner_join.1
      [Cell.str "Slab", Cell.null, Cell.str "Both"] (Cell.str "Slab") (by decide)
    simpa using h,
   by
    have h := one_hot_sum_inner_join.1
      [Cell.str "Slab", Cell.null, Cell.str "Both"] Cell.null (by decide)
    simpa using h,
   by
    exact (one_hot_sum_inner_join.2 Col Col
      [(26, [Cell.num 1])] [(26, [Cell.num 2]), (59, [Cell.num 3])] 26).mpr
      ⟨by decide, by decide⟩,
   by
    intro hmem
    have h := (one_hot_sum_inner_join.2 Col Col
      [(26, [Cell.num 1])] [(26, [Cell.num 2]), (59, [Cell.num 3])] 59).mp hmem
    exact absurd h.1 (by decide)⟩
